import Mathlib

/-!
Shallow embedding of `backend/app/main.py`: the `ConnectionManager` rate
limiter (`process_frame`, lines 95-190) and the websocket receive loop
(`websocket_endpoint`, lines 211-302).

Modelling conventions:
* Python floats (timestamps and intervals) are modelled as exact rationals
  `ℚ`.  Every claim-relevant float operation here is multiplication by the
  literals 1.5 / 2.0 / 0.8, `min` / `max` with the literals 5.0 / 15.0, and
  order comparisons; none of the claims depend on binary rounding of these.
  Timestamps are nonnegative, so `int(time.time())` is `Rat.floor`.
* `consecutive_errors` is a Python int, modelled as `ℤ` (the nonnegativity
  invariant is proved, not assumed).
* External collaborators that are not part of the repository are passed in
  as oracle arguments: `b64` is the result of `base64.b64decode` on the
  `image.data` value, and `generate` is the result of
  `model.generate_content` + `response.resolve()` + `response.text` on the
  decoded bytes.  A `GenResult.apiError msg` is routed by the code through
  the `"429" in error_msg` test, which is modelled literally on the
  message's characters (`has429`).
* Python exceptions are explicit: functions whose Python counterpart can
  raise return `Except String α`, where `.error e` is an exception with
  message `e` propagating out of the modelled region.  Each `try/except`
  of the source appears as a `match` on such a result.
-/

/-- Python value as seen after `json.loads`: the code only distinguishes
dicts (and their string keys), and everything else.  `none` at the use
sites stands for `json.JSONDecodeError`. -/
inductive PyVal where
  | pystr : String → PyVal
  | pydict : List (String × PyVal) → PyVal
  | pyother : PyVal

/-- Association-list lookup, modelling `'k' in d` followed by `d['k']`. -/
def lookupPairs : List (String × PyVal) → String → Option PyVal
  | [], _ => none
  | (k, v) :: rest, key => if k = key then some v else lookupPairs rest key

/-- Models `isinstance(v, dict) and 'key' in v` followed by `v['key']`:
`none` exactly when `v` is not a dict or lacks the key. -/
def PyVal.lookup : PyVal → String → Option PyVal
  | .pydict es, key => lookupPairs es key
  | _, _ => none

/-- State of the `ConnectionManager` rate limiter (lines 80-86), minus the
connection list, which is modelled separately as the registry. -/
structure ManagerState where
  last_request_time : ℚ
  request_interval : ℚ
  consecutive_errors : ℤ
deriving DecidableEq

/-- Constant `self.base_interval = 5.0` (line 86). -/
def base_interval : ℚ := 5.0

/-- Constant `self.max_consecutive_errors = 3` (line 85). -/
def max_consecutive_errors : ℤ := 3

/-- Fields set in `ConnectionManager.__init__` (lines 82-84):
`last_request_time = 0`, `request_interval = 5.0`, `consecutive_errors = 0`. -/
def initManagerState : ManagerState :=
  { last_request_time := 0, request_interval := 5.0, consecutive_errors := 0 }

/-- Result of the external Gemini call on the decoded image bytes:
`ok text` is a normal return of `response.text` (possibly empty),
`apiError msg` is an exception whose `str` is `msg`. -/
inductive GenResult where
  | ok : String → GenResult
  | apiError : String → GenResult
deriving DecidableEq

/-- Does this character list start with the characters `429`? -/
def starts429 : List Char → Bool
  | '4' :: '2' :: '9' :: _ => true
  | _ => false

/-- Models Python's `"429" in error_msg` (line 174): some suffix starts
with `429`. -/
def has429 : List Char → Bool
  | [] => false
  | c :: cs => starts429 (c :: cs) || has429 cs

/-- Rejected-frame interval update (lines 100-101): inside the
`elapsed < request_interval` branch, if `consecutive_errors > 0` then
`request_interval = min(request_interval * 1.5, 15.0)`. -/
def rejectUpdate (st : ManagerState) : ManagerState :=
  if 0 < st.consecutive_errors then
    { st with request_interval := min (st.request_interval * 1.5) 15.0 }
  else st

/-- Admitted-frame interval update (lines 104-108): if
`consecutive_errors == 0 and request_interval > base_interval` then
`request_interval = max(request_interval * 0.8, base_interval)`; then
`last_request_time = current_time`. -/
def relaxUpdate (st : ManagerState) (current_time : ℚ) : ManagerState :=
  let st1 :=
    if st.consecutive_errors = 0 ∧ base_interval < st.request_interval then
      { st with request_interval := max (st.request_interval * 0.8) base_interval }
    else st
  { st1 with last_request_time := current_time }

/-- The 429 branch of the API-error handler (lines 175-182):
`consecutive_errors += 1`; if `consecutive_errors >= max_consecutive_errors`
then `request_interval = min(request_interval * 2.0, 15.0)`, else if
`consecutive_errors == 0` then `request_interval = base_interval`. -/
def handle429 (st : ManagerState) : ManagerState :=
  let st1 := { st with consecutive_errors := st.consecutive_errors + 1 }
  if max_consecutive_errors ≤ st1.consecutive_errors then
    { st1 with request_interval := min (st1.request_interval * 2.0) 15.0 }
  else
    if st1.consecutive_errors = 0 then
      { st1 with request_interval := base_interval }
    else st1

/-- Variant of `handle429` with the `consecutive_errors == 0` reset branch
(lines 180-182) removed; used to state that that branch is dead code. -/
def handle429_noReset (st : ManagerState) : ManagerState :=
  let st1 := { st with consecutive_errors := st.consecutive_errors + 1 }
  if max_consecutive_errors ≤ st1.consecutive_errors then
    { st1 with request_interval := min (st1.request_interval * 2.0) 15.0 }
  else st1

/-- The non-429 branch of the API-error handler (line 185):
`consecutive_errors = 0`, nothing else changes. -/
def handleOtherError (st : ManagerState) : ManagerState :=
  { st with consecutive_errors := 0 }

/-- API-error handler `except Exception as api_error` (lines 170-186):
429-containing messages escalate and return the busy text, any other
message resets `consecutive_errors` and returns the detail. -/
def handleApiError (msg : String) (st : ManagerState) : Option String × ManagerState :=
  if has429 msg.toList then
    (some "AI服务暂时繁忙，请稍后再试... (自动调整处理速度)", handle429 st)
  else
    (some ("AI处理错误: " ++ msg), handleOtherError st)

/-- The `try` block around the Gemini call (lines 134-186): on a normal
return, empty text yields the fixed fallback text and nonempty text is
returned as is (the limiter state is untouched in both cases); on an API
exception the handler above runs. -/
def runInference (generate : List ℕ → GenResult) (image_bytes : List ℕ)
    (st : ManagerState) : Option String × ManagerState :=
  match generate image_bytes with
  | .ok text =>
      if text = "" then (some "AI未能生成回应，请稍后再试", st)
      else (some text, st)
  | .apiError msg => handleApiError msg st

/-- Outcome of the parsing/decoding section of `process_frame`
(lines 110-132), classifying which exception (if any) occurred and where
it is caught:
* `malformedJson`: `json.loads` failed, `raise ValueError("Invalid JSON
  format")` (line 115) — escapes to the outer handler at line 188;
* `malformedFrame`: not a dict or no `image` key, `raise ValueError(
  "Invalid frame data format")` (line 118) — escapes to the outer handler;
* `decodeFailed`: `image` is not a dict with `data`, or `b64decode`
  raised — caught by the inner handler (line 130), which returns the fixed
  decode-error text;
* `decoded bytes`: base64 decoding succeeded. -/
inductive DecodeOutcome where
  | malformedJson
  | malformedFrame
  | decodeFailed
  | decoded (bytes : List ℕ)
deriving DecidableEq

/-- Parsing/decoding logic of lines 110-132 over the `json.loads` result
`frame_json` (`none` = `JSONDecodeError`) and the `base64.b64decode`
oracle `b64`. -/
def decodeFrame (frame_json : Option PyVal)
    (b64 : PyVal → Except String (List ℕ)) : DecodeOutcome :=
  match frame_json with
  | none => .malformedJson
  | some fj =>
    match fj.lookup "image" with
    | none => .malformedFrame
    | some image_data =>
      match image_data.lookup "data" with
      | none => .decodeFailed
      | some dataVal =>
        match b64 dataVal with
        | .error _ => .decodeFailed
        | .ok bytes => .decoded bytes

/-- Body of the outer `try` of `process_frame` (lines 97-186).  The result
is `.error e` when a `ValueError` with message `e` is about to escape to
the outer `except Exception` handler at line 188.  Note that the rate-limit
admission check (line 99) runs BEFORE any parsing of the frame. -/
def process_frame_body (st : ManagerState) (current_time : ℚ)
    (frame_json : Option PyVal) (b64 : PyVal → Except String (List ℕ))
    (generate : List ℕ → GenResult) :
    Except String (Option String) × ManagerState :=
  if current_time - st.last_request_time < st.request_interval then
    (.ok none, rejectUpdate st)
  else
    let st1 := relaxUpdate st current_time
    match decodeFrame frame_json b64 with
    | .malformedJson => (.error "Invalid JSON format", st1)
    | .malformedFrame => (.error "Invalid frame data format", st1)
    | .decodeFailed => (.ok (some "视频帧解码错误，请检查图像格式"), st1)
    | .decoded bytes =>
        match runInference generate bytes st1 with
        | (r, st2) => (.ok r, st2)

/-- Models `ConnectionManager.process_frame` (lines 95-190): the body wrapped in
the outer `except Exception` handler (lines 188-190), which converts any
escaping exception into the normal return `"系统错误: " ++ e`.  A `.error`
in the result would mean an exception propagating out of `process_frame`
into the caller. -/
def process_frame (st : ManagerState) (current_time : ℚ)
    (frame_json : Option PyVal) (b64 : PyVal → Except String (List ℕ))
    (generate : List ℕ → GenResult) :
    Except String (Option String) × ManagerState :=
  let r := process_frame_body st current_time frame_json b64 generate
  match r.1 with
  | .error e => (.ok (some ("系统错误: " ++ e)), r.2)
  | .ok v => (.ok v, r.2)

/-- Outbound websocket messages, by their `type` field (§6 of the design):
`{"type": "ping"}`, `{"type": "response", "data": s, "timestamp": ts}`,
`{"type": "error", "message": s, "timestamp": ts?}`. -/
inductive OutMsg where
  | ping : OutMsg
  | response : String → ℤ → OutMsg
  | errorMsg : String → Option ℤ → OutMsg
deriving DecidableEq

/-- Per-connection loop-local variables of `websocket_endpoint`
(lines 214-215): `last_ping` and `last_activity`. -/
structure SessionLoop where
  last_ping : ℚ
  last_activity : ℚ
deriving DecidableEq

/-- How one iteration of the receive loop ends. -/
inductive StepOutcome where
  /-- Fall through to the next iteration of `while True`. -/
  | continueLoop
  /-- Close: `await websocket.close(code)` followed by `break` (lines 226-227). -/
  | closedWith (code : ℕ)
  /-- Handler `except WebSocketDisconnect` (lines 290-292). -/
  | fatalDisconnect
  /-- Outer `except Exception` handler (lines 293-302). -/
  | fatalError
deriving DecidableEq

/-- What `await asyncio.wait_for(websocket.receive_text(), ...)` (and, for
the failure cases, the subsequent sends) did in this iteration:
* `text fj sends` — a frame arrived; `fj` is the `json.loads` result of
  its text, and `sends n` tells whether the n-th `websocket.send_text`
  call attempted after the frame was received returns normally (`true`) or
  raises (`false`) — the socket can die right after delivering a frame, so
  these sends can fail, and the `try` at line 245 routes such failures
  through the handlers at lines 258-264, 272-278 and 283-288;
* `timedOut` — `asyncio.TimeoutError`, handled at line 280 by `continue`;
* `disconnected` — the client disconnected; the resulting exception
  reaches the handlers at lines 290-302 (directly, or after the inner
  handler's send at line 285 itself fails on the closed socket), where
  `manager.disconnect` runs;
* `recvError` — receive (or the ping send) raised some other exception and
  the error send at line 285 succeeded: the loop continues;
* `transportFatal` — as `recvError` but the error send also failed, so the
  exception escapes to the outer handler (lines 293-302): the best-effort
  final send fails and is swallowed, and `manager.disconnect` runs. -/
inductive RecvResult where
  | text (frame_json : Option PyVal) (sends : ℕ → Bool)
  | timedOut
  | disconnected
  | recvError
  | transportFatal

/-- Every post-receive send in this iteration returns normally; trivial
for iterations that do not receive a frame. -/
def allSendsOk : RecvResult → Prop
  | .text _ sends => ∀ n, sends n = true
  | _ => True

/-- Walks an exception-handler cascade of `websocket.send_text` calls: the
n-th attempted send delivers its message and execution continues normally
if `sends n` is `true`; if it raises, the enclosing handler attempts the
next message of the cascade.  Returns the delivered message, or `none`
when every attempt raised (the last exception then escapes to the outer
handlers at lines 290-302). -/
def attemptSends (sends : ℕ → Bool) : List OutMsg → ℕ → Option OutMsg
  | [], _ => none
  | m :: rest, n => if sends n then some m else attemptSends sends rest (n + 1)

/-- Models `manager.connect` (lines 88-90): `active_connections.append(websocket)`. -/
def connect (registry : List ℕ) (ws : ℕ) : List ℕ :=
  registry ++ [ws]

/-- Models `manager.disconnect` (lines 92-93): `active_connections.remove(websocket)`. -/
def disconnect (registry : List ℕ) (ws : ℕ) : List ℕ :=
  registry.erase ws

/-- One iteration of the `while True` receive loop of `websocket_endpoint`
(lines 220-302), with websockets named by numbers and delivered messages
collected in a list.  Order of business, as in the source: the inactivity
check (lines 223-227) — note that its `break` leaves the loop normally, so
NO `manager.disconnect` runs on that path; the periodic ping (lines
230-233); the receive and the handling of its result (lines 236-288).
After a received frame, the sends are governed by the event's `sends`
oracle and the `try` at line 245 guards them all, giving a cascade of
attempts: on the returned-response path line 256, then the handlers at
line 260, line 274 and line 285; on the rate-limited path line 267, then
line 274 and line 285; if even line 285's send raises, the exception
escapes to the outer handlers (lines 290-302), whose own best-effort send
on the already-failing socket is swallowed, and `manager.disconnect`
runs. -/
def endpointStep (b64 : PyVal → Except String (List ℕ))
    (generate : List ℕ → GenResult) (ws : ℕ) (registry : List ℕ)
    (st : ManagerState) (lp : SessionLoop) (current_time : ℚ)
    (recv : RecvResult) :
    List OutMsg × List ℕ × ManagerState × SessionLoop × StepOutcome :=
  if 300 < current_time - lp.last_activity then
    ([], registry, st, lp, .closedWith 1000)
  else
    let pings := if 15 ≤ current_time - lp.last_ping then [OutMsg.ping] else []
    let lp1 := if 15 ≤ current_time - lp.last_ping then
      { lp with last_ping := current_time } else lp
    match recv with
    | .timedOut => (pings, registry, st, lp1, .continueLoop)
    | .disconnected => (pings, disconnect registry ws, st, lp1, .fatalDisconnect)
    | .recvError =>
        (pings ++ [OutMsg.errorMsg "处理错误，请重试" none], registry, st, lp1,
          .continueLoop)
    | .transportFatal => (pings, disconnect registry ws, st, lp1, .fatalError)
    | .text fj sends =>
        let lp2 := { lp1 with last_activity := current_time }
        let ts := Rat.floor current_time
        match process_frame st current_time fj b64 generate with
        | (.ok (some s), st2) =>
            match attemptSends sends
                [OutMsg.response s ts,
                  OutMsg.errorMsg "发送响应时出错，请重试" (some ts),
                  OutMsg.errorMsg "处理视频帧时出错，请重试" (some ts),
                  OutMsg.errorMsg "处理错误，请重试" none] 0 with
            | some m => (pings ++ [m], registry, st2, lp2, .continueLoop)
            | none => (pings, disconnect registry ws, st2, lp2, .fatalError)
        | (.ok none, st2) =>
            match attemptSends sends
                [OutMsg.errorMsg "请稍等，正在处理上一帧..." (some ts),
                  OutMsg.errorMsg "处理视频帧时出错，请重试" (some ts),
                  OutMsg.errorMsg "处理错误，请重试" none] 0 with
            | some m => (pings ++ [m], registry, st2, lp2, .continueLoop)
            | none => (pings, disconnect registry ws, st2, lp2, .fatalError)
        | (.error _, st2) =>
            match attemptSends sends
                [OutMsg.errorMsg "处理视频帧时出错，请重试" (some ts),
                  OutMsg.errorMsg "处理错误，请重试" none] 0 with
            | some m => (pings ++ [m], registry, st2, lp2, .continueLoop)
            | none => (pings, disconnect registry ws, st2, lp2, .fatalError)

/-- Runs the receive loop over a finite schedule of iterations, each given
by the wall-clock time at the top of the iteration and the receive result.
Stops early when an iteration does not fall through; if the schedule is
exhausted the session is still open (`continueLoop`). -/
def runEndpoint (b64 : PyVal → Except String (List ℕ))
    (generate : List ℕ → GenResult) (ws : ℕ) :
    List (ℚ × RecvResult) → List ℕ → ManagerState → SessionLoop →
    List OutMsg × List ℕ × ManagerState × SessionLoop × StepOutcome
  | [], registry, st, lp => ([], registry, st, lp, .continueLoop)
  | (t, r) :: rest, registry, st, lp =>
    match endpointStep b64 generate ws registry st lp t r with
    | (msgs, registry2, st2, lp2, .continueLoop) =>
      match runEndpoint b64 generate ws rest registry2 st2 lp2 with
      | (msgs2, registry3, st3, lp3, oc) => (msgs ++ msgs2, registry3, st3, lp3, oc)
    | (msgs, registry2, st2, lp2, oc) => (msgs, registry2, st2, lp2, oc)

/-- Modelled from the spec: the data flow stated in §2 and §4.3 of the
design document — "client → ConnectionSession.receive → FrameDecoder →
AdaptiveRateLimiter.admit → (if admitted) InferenceClient.describe" — in
which the frame is decoded BEFORE the admission decision.  This definition
exists only to be compared with `process_frame`, which performs the
admission check first; the individual outcomes reuse the source's values. -/
def process_frame_spec_order (st : ManagerState) (current_time : ℚ)
    (frame_json : Option PyVal) (b64 : PyVal → Except String (List ℕ))
    (generate : List ℕ → GenResult) :
    Except String (Option String) × ManagerState :=
  match decodeFrame frame_json b64 with
  | .malformedJson => (.error "Invalid JSON format", st)
  | .malformedFrame => (.error "Invalid frame data format", st)
  | .decodeFailed => (.ok (some "视频帧解码错误，请检查图像格式"), st)
  | .decoded bytes =>
    if current_time - st.last_request_time < st.request_interval then
      (.ok none, rejectUpdate st)
    else
      let st1 := relaxUpdate st current_time
      match runInference generate bytes st1 with
      | (r, st2) => (.ok r, st2)

/-- A well-formed frame envelope for concrete test inputs. -/
def frameOk : PyVal :=
  .pydict [("image", .pydict [("data", .pystr "AA==")])]

/-- Oracle: base64 decoding succeeds with a one-byte image. -/
def b64ok : PyVal → Except String (List ℕ) := fun _ => .ok [0]

/-- Oracle: base64 decoding fails. -/
def b64bad : PyVal → Except String (List ℕ) :=
  fun _ => .error "Invalid base64-encoded string"

/-- Oracle: the Gemini call returns nonempty text. -/
def genOk : List ℕ → GenResult := fun _ => .ok "描述文本"

/-- Oracle: the Gemini call raises with a 429 message. -/
def gen429 : List ℕ → GenResult :=
  fun _ => .apiError "429 Resource has been exhausted"

/-- Oracle: the Gemini call raises with a non-429 message. -/
def genOther : List ℕ → GenResult := fun _ => .apiError "500 internal error"

/-- Send oracle: every `websocket.send_text` call returns normally. -/
def sendsAllOk : ℕ → Bool := fun _ => true

/-- Send oracle: the first send of the iteration raises (the client
vanished right after delivering its frame) and later ones return
normally. -/
def sendFailFirst : ℕ → Bool
  | 0 => false
  | _ => true

/-- Is this `Except` result an escaped exception? -/
def exnEscaped : Except String (Option String) → Bool
  | .error _ => true
  | .ok _ => false

/-- Does the list contain an `error`-type message with exactly this text? -/
def hasErrorText (s : String) (l : List OutMsg) : Bool :=
  l.any fun m =>
    match m with
    | .errorMsg s2 _ => s2 == s
    | _ => false

/-- Number of `error`-type messages in the list. -/
def errorTypeCount (l : List OutMsg) : ℕ :=
  (l.filter fun m =>
    match m with
    | .errorMsg _ _ => true
    | _ => false).length

/-- Three admitted requests, 10 s apart, each ending in a 429 from the
upstream call, starting from the initial limiter state. -/
def overload1 : Except String (Option String) × ManagerState :=
  process_frame initManagerState 10 (some frameOk) b64ok gen429

/-- Second overloaded request of the scenario. -/
def overload2 : Except String (Option String) × ManagerState :=
  process_frame overload1.2 20 (some frameOk) b64ok gen429

/-- Third overloaded request of the scenario. -/
def overload3 : Except String (Option String) × ManagerState :=
  process_frame overload2.2 30 (some frameOk) b64ok gen429

/-- First of two frames arriving 1 s apart with no prior errors: admitted
at t = 10 from the initial state. -/
def twoFrameFirst : Except String (Option String) × ManagerState :=
  process_frame initManagerState 10 (some frameOk) b64ok genOk

/-- Second of the two frames, 1 s later. -/
def twoFrameSecond : Except String (Option String) × ManagerState :=
  process_frame twoFrameFirst.2 11 (some frameOk) b64ok genOk

lemma rejectUpdate_consecutive (st : ManagerState) :
    (rejectUpdate st).consecutive_errors = st.consecutive_errors := by
  unfold rejectUpdate; split <;> rfl

lemma rejectUpdate_lrt (st : ManagerState) :
    (rejectUpdate st).last_request_time = st.last_request_time := by
  unfold rejectUpdate; split <;> rfl

lemma rejectUpdate_bounds (st : ManagerState)
    (h1 : base_interval ≤ st.request_interval) (h2 : st.request_interval ≤ 15) :
    base_interval ≤ (rejectUpdate st).request_interval ∧
      (rejectUpdate st).request_interval ≤ 15 := by
  unfold rejectUpdate
  unfold base_interval at *
  split
  · dsimp only
    refine ⟨le_min (by linarith) (by norm_num), ?_⟩
    calc min (st.request_interval * 1.5) 15.0 ≤ 15.0 := min_le_right _ _
      _ = 15 := by norm_num
  · exact ⟨h1, h2⟩

lemma relaxUpdate_consecutive (st : ManagerState) (t : ℚ) :
    (relaxUpdate st t).consecutive_errors = st.consecutive_errors := by
  unfold relaxUpdate; split <;> rfl

lemma relaxUpdate_bounds (st : ManagerState) (t : ℚ)
    (h1 : base_interval ≤ st.request_interval) (h2 : st.request_interval ≤ 15) :
    base_interval ≤ (relaxUpdate st t).request_interval ∧
      (relaxUpdate st t).request_interval ≤ 15 := by
  unfold relaxUpdate
  unfold base_interval at *
  split
  · dsimp only
    refine ⟨le_max_right _ _, max_le (by linarith) (by norm_num)⟩
  · exact ⟨h1, h2⟩

lemma handle429_consecutive (st : ManagerState) :
    (handle429 st).consecutive_errors = st.consecutive_errors + 1 := by
  unfold handle429
  dsimp only
  split
  · rfl
  · split <;> rfl

lemma handle429_bounds (st : ManagerState)
    (h1 : base_interval ≤ st.request_interval) (h2 : st.request_interval ≤ 15) :
    base_interval ≤ (handle429 st).request_interval ∧
      (handle429 st).request_interval ≤ 15 := by
  unfold handle429
  unfold base_interval at *
  dsimp only
  split
  · dsimp only
    refine ⟨le_min (by linarith) (by norm_num), ?_⟩
    calc min (st.request_interval * 2.0) 15.0 ≤ 15.0 := min_le_right _ _
      _ = 15 := by norm_num
  · split
    · exact ⟨by norm_num, by norm_num⟩
    · exact ⟨h1, h2⟩

lemma runInference_bounds (g : List ℕ → GenResult) (bytes : List ℕ)
    (st : ManagerState)
    (h1 : base_interval ≤ st.request_interval) (h2 : st.request_interval ≤ 15) :
    base_interval ≤ (runInference g bytes st).2.request_interval ∧
      (runInference g bytes st).2.request_interval ≤ 15 := by
  unfold runInference
  match g bytes with
  | .ok text =>
    dsimp only
    split <;> exact ⟨h1, h2⟩
  | .apiError msg =>
    dsimp only
    unfold handleApiError
    split
    · exact handle429_bounds st h1 h2
    · exact ⟨h1, h2⟩

lemma process_frame_snd (st : ManagerState) (t : ℚ) (fj : Option PyVal)
    (b64 : PyVal → Except String (List ℕ)) (g : List ℕ → GenResult) :
    (process_frame st t fj b64 g).2 = (process_frame_body st t fj b64 g).2 := by
  unfold process_frame
  cases hb : (process_frame_body st t fj b64 g).1 <;> simp [hb]

lemma process_frame_ok (st : ManagerState) (t : ℚ) (fj : Option PyVal)
    (b64 : PyVal → Except String (List ℕ)) (g : List ℕ → GenResult) :
    ∃ v, (process_frame st t fj b64 g).1 = Except.ok v := by
  unfold process_frame
  cases hb : (process_frame_body st t fj b64 g).1 <;> simp [hb]

lemma process_frame_body_bounds (st : ManagerState) (t : ℚ) (fj : Option PyVal)
    (b64 : PyVal → Except String (List ℕ)) (g : List ℕ → GenResult)
    (h1 : base_interval ≤ st.request_interval) (h2 : st.request_interval ≤ 15) :
    base_interval ≤ (process_frame_body st t fj b64 g).2.request_interval ∧
      (process_frame_body st t fj b64 g).2.request_interval ≤ 15 := by
  unfold process_frame_body
  split
  · exact rejectUpdate_bounds st h1 h2
  · have hr := relaxUpdate_bounds st t h1 h2
    split
    · exact hr
    · exact hr
    · exact hr
    · exact runInference_bounds g _ _ hr.1 hr.2


lemma handleOtherError_ce (st : ManagerState) :
    (handleOtherError st).consecutive_errors = 0 := rfl

lemma handleApiError_ce_nonneg (msg : String) (st : ManagerState)
    (h : 0 ≤ st.consecutive_errors) :
    0 ≤ (handleApiError msg st).2.consecutive_errors := by
  unfold handleApiError
  split
  · dsimp only
    rw [handle429_consecutive]
    omega
  · dsimp only
    rw [handleOtherError_ce]

lemma runInference_ce_nonneg (g : List ℕ → GenResult) (bytes : List ℕ)
    (st : ManagerState) (h : 0 ≤ st.consecutive_errors) :
    0 ≤ (runInference g bytes st).2.consecutive_errors := by
  unfold runInference
  match g bytes with
  | .ok text =>
    dsimp only
    split <;> exact h
  | .apiError msg =>
    dsimp only
    exact handleApiError_ce_nonneg msg st h

lemma process_frame_body_ce_nonneg (st : ManagerState) (t : ℚ) (fj : Option PyVal)
    (b64 : PyVal → Except String (List ℕ)) (g : List ℕ → GenResult)
    (h : 0 ≤ st.consecutive_errors) :
    0 ≤ (process_frame_body st t fj b64 g).2.consecutive_errors := by
  unfold process_frame_body
  have hr : 0 ≤ (relaxUpdate st t).consecutive_errors := by
    rw [relaxUpdate_consecutive]; exact h
  split
  · rw [rejectUpdate_consecutive]; exact h
  · split
    · exact hr
    · exact hr
    · exact hr
    · exact runInference_ce_nonneg g _ _ hr


lemma hasErrorText_append (s : String) (l1 l2 : List OutMsg) :
    hasErrorText s (l1 ++ l2) = (hasErrorText s l1 || hasErrorText s l2) := by
  unfold hasErrorText
  exact List.any_append


/-- C3: the invariant `baseInterval (5.0) ≤ currentInterval ≤ maxInterval
(15.0)` holds for the initial `ConnectionManager` state and is preserved by
every `process_frame` call, hence by every rate-limiter operation it
contains: the rejection widening (×1.5), the recovery relaxation (×0.8),
and the outcome handling for success, overload (×2.0) and other errors. -/
theorem interval_bounds_invariant :
    (base_interval ≤ initManagerState.request_interval ∧
      initManagerState.request_interval ≤ 15) ∧
    ∀ (st : ManagerState) (t : ℚ) (fj : Option PyVal)
      (b64 : PyVal → Except String (List ℕ)) (g : List ℕ → GenResult),
      base_interval ≤ st.request_interval → st.request_interval ≤ 15 →
      base_interval ≤ (process_frame st t fj b64 g).2.request_interval ∧
        (process_frame st t fj b64 g).2.request_interval ≤ 15 := by
  constructor
  · norm_num [initManagerState, base_interval]
  · intro st t fj b64 g h1 h2
    rw [process_frame_snd]
    exact process_frame_body_bounds st t fj b64 g h1 h2

/-- Witness for `interval_bounds_invariant` at a concrete input. -/
theorem interval_bounds_invariant_witness :
    base_interval ≤ (process_frame initManagerState 20 none b64bad genOk).2.request_interval ∧
      (process_frame initManagerState 20 none b64bad genOk).2.request_interval ≤ 15 :=
  interval_bounds_invariant.2 initManagerState 20 none b64bad genOk
    (by norm_num [initManagerState, base_interval]) (by norm_num [initManagerState])

/-- C8: `reportOutcome(OtherError)` — the non-429 branch at line 185 —
never changes `request_interval` (nor `last_request_time`), only sets
`consecutive_errors` to 0, and is idempotent on the limiter state. -/
theorem other_error_idempotent :
    ∀ st : ManagerState,
      (handleOtherError st).request_interval = st.request_interval ∧
      (handleOtherError st).last_request_time = st.last_request_time ∧
      (handleOtherError st).consecutive_errors = 0 ∧
      handleOtherError (handleOtherError st) = handleOtherError st := by
  intro st
  exact ⟨rfl, rfl, rfl, rfl⟩

/-- C10: the `consecutive_errors == 0` interval reset inside the 429
handler (lines 180-182) is dead code: on every state with nonnegative
`consecutive_errors` — an invariant established by the initial state and
preserved by `process_frame` — `handle429` coincides with the same handler
with that branch removed, because the counter was just incremented. -/
theorem overloaded_reset_branch_dead :
    (∀ st : ManagerState, 0 ≤ st.consecutive_errors →
      handle429 st = handle429_noReset st) ∧
    0 ≤ initManagerState.consecutive_errors ∧
    ∀ (st : ManagerState) (t : ℚ) (fj : Option PyVal)
      (b64 : PyVal → Except String (List ℕ)) (g : List ℕ → GenResult),
      0 ≤ st.consecutive_errors →
      0 ≤ (process_frame st t fj b64 g).2.consecutive_errors := by
  refine ⟨?_, ?_, ?_⟩
  · intro st h
    unfold handle429 handle429_noReset
    dsimp only
    split
    · rfl
    · rw [if_neg (by omega)]
  · norm_num [initManagerState]
  · intro st t fj b64 g h
    rw [process_frame_snd]
    exact process_frame_body_ce_nonneg st t fj b64 g h

/-- Witness for `overloaded_reset_branch_dead` at a concrete input. -/
theorem overloaded_reset_branch_dead_witness :
    handle429 ⟨0, 5, 1⟩ = handle429_noReset ⟨0, 5, 1⟩ ∧
      0 ≤ (process_frame initManagerState 20 none b64bad genOk).2.consecutive_errors :=
  ⟨overloaded_reset_branch_dead.1 ⟨0, 5, 1⟩ (by norm_num),
    overloaded_reset_branch_dead.2.2 initManagerState 20 none b64bad genOk
      (by norm_num [initManagerState])⟩

/-- C4: each 429 outcome increments `consecutive_errors` by one; when the
incremented counter reaches `max_consecutive_errors = 3` the interval is
set to `min(interval * 2.0, 15.0)`, and below the threshold (on the
reachable, nonnegative-counter states) the interval is unchanged — the
counter is never reset by this handler, so escalation repeats on later
overloads.  Concretely, three admitted requests each reporting a 429 from
`currentInterval = 5.0` leave `currentInterval = 10.0` (and the counter at
3). -/
theorem overloaded_escalation :
    (∀ st : ManagerState,
      (handle429 st).consecutive_errors = st.consecutive_errors + 1 ∧
      (max_consecutive_errors ≤ st.consecutive_errors + 1 →
        (handle429 st).request_interval = min (st.request_interval * 2.0) 15.0) ∧
      (0 ≤ st.consecutive_errors →
        st.consecutive_errors + 1 < max_consecutive_errors →
        (handle429 st).request_interval = st.request_interval)) ∧
    overload3.2.request_interval = 10 ∧ overload3.2.consecutive_errors = 3 := by
  refine ⟨?_, ?_⟩
  · intro st
    refine ⟨handle429_consecutive st, ?_, ?_⟩
    · intro h
      unfold handle429
      dsimp only
      rw [if_pos h]
    · intro h0 hlt
      unfold handle429
      dsimp only
      rw [if_neg (by omega), if_neg (by omega)]
  · constructor <;>
      norm_num +decide [overload3, overload2, overload1, process_frame,
        process_frame_body, relaxUpdate, rejectUpdate, initManagerState,
        base_interval, runInference, gen429, handleApiError, handle429,
        handleOtherError, max_consecutive_errors, decodeFrame, frameOk, b64ok,
        PyVal.lookup, lookupPairs]

/-- Witness for `overloaded_escalation` at a concrete input. -/
theorem overloaded_escalation_witness :
    (handle429 ⟨0, 5, 2⟩).consecutive_errors = 3 ∧
      (handle429 ⟨0, 5, 2⟩).request_interval = min ((5 : ℚ) * 2.0) 15.0 ∧
      (handle429 ⟨0, 5, 0⟩).request_interval = 5 :=
  ⟨(overloaded_escalation.1 ⟨0, 5, 2⟩).1,
    (overloaded_escalation.1 ⟨0, 5, 2⟩).2.1 (by norm_num [max_consecutive_errors]),
    (overloaded_escalation.1 ⟨0, 5, 0⟩).2.2 (by norm_num)
      (by norm_num [max_consecutive_errors])⟩

/-- C1 (amended): a successful inference call — an admitted frame whose
decode succeeds and whose upstream call returns normally, with empty or
nonempty text — leaves `consecutive_errors` (indeed the whole limiter
state after the admission update) unchanged; nothing on the success path
of lines 153-168 resets the counter. -/
theorem success_leaves_consecutive_errors_unchanged :
    ∀ (st : ManagerState) (t : ℚ) (fj : Option PyVal)
      (b64 : PyVal → Except String (List ℕ)) (g : List ℕ → GenResult)
      (bytes : List ℕ) (text : String),
      ¬ t - st.last_request_time < st.request_interval →
      decodeFrame fj b64 = .decoded bytes →
      g bytes = .ok text →
      (process_frame st t fj b64 g).1 =
        Except.ok (some (if text = "" then "AI未能生成回应，请稍后再试" else text)) ∧
      (process_frame st t fj b64 g).2 = relaxUpdate st t ∧
      (process_frame st t fj b64 g).2.consecutive_errors = st.consecutive_errors := by
  intro st t fj b64 g bytes text hadm hdec hg
  have hbody : process_frame_body st t fj b64 g =
      (Except.ok (some (if text = "" then "AI未能生成回应，请稍后再试" else text)),
        relaxUpdate st t) := by
    unfold process_frame_body
    rw [if_neg hadm, hdec]
    dsimp only
    unfold runInference
    rw [hg]
    by_cases ht : text = "" <;> simp [ht]
  refine ⟨?_, ?_, ?_⟩
  · simp only [process_frame, hbody]
  · rw [process_frame_snd, hbody]
  · rw [process_frame_snd, hbody]
    exact relaxUpdate_consecutive st t

/-- Witness for `success_leaves_consecutive_errors_unchanged` at a
concrete input with one prior error. -/
theorem success_leaves_consecutive_errors_unchanged_witness :
    (process_frame ⟨10, 5, 1⟩ 20 (some frameOk) b64ok genOk).1 =
        Except.ok (some (if "描述文本" = "" then "AI未能生成回应，请稍后再试" else "描述文本")) ∧
      (process_frame ⟨10, 5, 1⟩ 20 (some frameOk) b64ok genOk).2 = relaxUpdate ⟨10, 5, 1⟩ 20 ∧
      (process_frame ⟨10, 5, 1⟩ 20 (some frameOk) b64ok genOk).2.consecutive_errors = 1 :=
  success_leaves_consecutive_errors_unchanged ⟨10, 5, 1⟩ 20 (some frameOk) b64ok genOk
    [0] "描述文本" (by norm_num) (by decide) rfl

/-- C1 (counterexample): from a state with `consecutive_errors = 1`, an
admitted, fully successful inference call returns the model's nonempty
text but leaves `consecutive_errors = 1` — it is not reset to 0. -/
theorem success_reset_counterexample :
    process_frame ⟨10, 5, 1⟩ 20 (some frameOk) b64ok genOk =
      (Except.ok (some "描述文本"), ⟨20, 5, 1⟩) ∧
    (process_frame ⟨10, 5, 1⟩ 20 (some frameOk) b64ok genOk).2.consecutive_errors = 1 := by
  constructor <;>
    norm_num +decide [process_frame, process_frame_body, relaxUpdate, rejectUpdate,
      base_interval, runInference, genOk, decodeFrame, frameOk, b64ok,
      PyVal.lookup, lookupPairs]

/-- C5: a frame arriving with `elapsed < currentInterval` is rejected
(`process_frame` returns `None`): with `consecutiveErrors > 0` the
rejection sets `currentInterval = min(currentInterval * 1.5, 15.0)` —
which, on states satisfying the interval invariant, never decreases it and
never exceeds 15 — and with `consecutiveErrors == 0` it leaves the whole
state unchanged.  Concretely, of two frames 1 s apart with no prior
errors, the first is admitted (returning the model text) and the second is
rejected with the interval still 5.0. -/
theorem rejection_behavior :
    (∀ (st : ManagerState) (t : ℚ) (fj : Option PyVal)
       (b64 : PyVal → Except String (List ℕ)) (g : List ℕ → GenResult),
       t - st.last_request_time < st.request_interval →
       (process_frame st t fj b64 g).1 = Except.ok none ∧
       (0 < st.consecutive_errors →
         (process_frame st t fj b64 g).2.request_interval =
           min (st.request_interval * 1.5) 15.0) ∧
       (0 < st.consecutive_errors → base_interval ≤ st.request_interval →
         st.request_interval ≤ 15 →
         st.request_interval ≤ (process_frame st t fj b64 g).2.request_interval ∧
           (process_frame st t fj b64 g).2.request_interval ≤ 15) ∧
       (st.consecutive_errors = 0 → (process_frame st t fj b64 g).2 = st)) ∧
    twoFrameFirst = (Except.ok (some "描述文本"), ⟨10, 5, 0⟩) ∧
    twoFrameSecond = (Except.ok none, ⟨10, 5, 0⟩) := by
  refine ⟨?_, ?_, ?_⟩
  · intro st t fj b64 g hlt
    have hbody : process_frame_body st t fj b64 g = (Except.ok none, rejectUpdate st) := by
      unfold process_frame_body
      rw [if_pos hlt]
    have h2 : (process_frame st t fj b64 g).2 = rejectUpdate st := by
      rw [process_frame_snd, hbody]
    refine ⟨?_, ?_, ?_, ?_⟩
    · simp only [process_frame, hbody]
    · intro hce
      rw [h2]
      unfold rejectUpdate
      rw [if_pos hce]
    · intro hce hb hub
      rw [h2]
      unfold rejectUpdate
      rw [if_pos hce]
      dsimp only
      unfold base_interval at hb
      constructor
      · exact le_min (by linarith) (by linarith)
      · exact le_trans (min_le_right _ _) (by norm_num)
    · intro hce
      rw [h2]
      unfold rejectUpdate
      rw [if_neg (by omega)]
  · norm_num +decide [twoFrameFirst, process_frame, process_frame_body, relaxUpdate,
      rejectUpdate, initManagerState, base_interval, runInference, genOk,
      decodeFrame, frameOk, b64ok, PyVal.lookup, lookupPairs]
  · norm_num +decide [twoFrameSecond, twoFrameFirst, process_frame,
      process_frame_body, relaxUpdate, rejectUpdate, initManagerState,
      base_interval, runInference, genOk, decodeFrame, frameOk, b64ok,
      PyVal.lookup, lookupPairs]

/-- Witness for `rejection_behavior` at a concrete input with a prior
error. -/
theorem rejection_behavior_witness :
    (process_frame ⟨0, 5, 1⟩ 1 none b64bad genOk).1 = Except.ok none ∧
      (process_frame ⟨0, 5, 1⟩ 1 none b64bad genOk).2.request_interval =
        min ((5 : ℚ) * 1.5) 15.0 ∧
      (process_frame ⟨0, 5, 0⟩ 1 none b64bad genOk).2 = ⟨0, 5, 0⟩ :=
  ⟨((rejection_behavior.1 ⟨0, 5, 1⟩ 1 none b64bad genOk) (by norm_num)).1,
    ((rejection_behavior.1 ⟨0, 5, 1⟩ 1 none b64bad genOk) (by norm_num)).2.1 (by norm_num),
    ((rejection_behavior.1 ⟨0, 5, 0⟩ 1 none b64bad genOk) (by norm_num)).2.2.2 rfl⟩

/-- C7 (amended): the admission decision is made BEFORE any decoding: for
every frame arriving with `elapsed < currentInterval` the result is the
rate-limit rejection, identical for every frame payload and for every
base64/inference oracle — the frame content is never consulted.  Decoding
and the inference call happen only on admitted frames. -/
theorem admission_before_decode :
    ∀ (st : ManagerState) (t : ℚ) (fj fj2 : Option PyVal)
      (b64 b642 : PyVal → Except String (List ℕ)) (g g2 : List ℕ → GenResult),
      t - st.last_request_time < st.request_interval →
      (process_frame st t fj b64 g).1 = Except.ok none ∧
      process_frame st t fj b64 g = process_frame st t fj2 b642 g2 := by
  intro st t fj fj2 b64 b642 g g2 hlt
  have hb1 : process_frame_body st t fj b64 g = (Except.ok none, rejectUpdate st) := by
    unfold process_frame_body
    rw [if_pos hlt]
  have hb2 : process_frame_body st t fj2 b642 g2 = (Except.ok none, rejectUpdate st) := by
    unfold process_frame_body
    rw [if_pos hlt]
  constructor
  · simp only [process_frame, hb1]
  · simp only [process_frame, hb1, hb2]

/-- Witness for `admission_before_decode`: a malformed and a well-formed
frame, arriving 1 s after the last request, get the same rejection. -/
theorem admission_before_decode_witness :
    (process_frame ⟨10, 5, 0⟩ 11 none b64bad genOther).1 = Except.ok none ∧
      process_frame ⟨10, 5, 0⟩ 11 none b64bad genOther =
        process_frame ⟨10, 5, 0⟩ 11 (some frameOk) b64ok genOk :=
  admission_before_decode ⟨10, 5, 0⟩ 11 none (some frameOk) b64bad b64ok
    genOther genOk (by norm_num)

/-- C7 (counterexample): at `elapsed = 1 < 5` with an unparsable frame the
code returns the rate-limit rejection `None` — the malformed payload is
never noticed — whereas the spec's stated decode-before-admit order
(`process_frame_spec_order`) surfaces the decode failure. -/
theorem decode_order_counterexample :
    process_frame ⟨10, 5, 0⟩ 11 none b64bad genOk = (Except.ok none, ⟨10, 5, 0⟩) ∧
    process_frame_spec_order ⟨10, 5, 0⟩ 11 none b64bad genOk =
      (Except.error "Invalid JSON format", ⟨10, 5, 0⟩) := by
  constructor <;>
    norm_num +decide [process_frame, process_frame_body, process_frame_spec_order,
      rejectUpdate, decodeFrame]


/-- C2: the inactivity-timeout close path does NOT remove the websocket
from `active_connections`.  A session that connects (registry `[1]`) and
then receives nothing — two receive timeouts, the second waking at
t = 301 s past `last_activity = 0` — is closed with the normal closure
code 1000, yet the final registry is still `[1]`: the `break` at line 227
leaves the loop without ever calling `manager.disconnect` (which only the
exception handlers at lines 290-302 do). -/
theorem inactivity_timeout_keeps_registry :
    runEndpoint b64bad genOk 1 [(16, RecvResult.timedOut), (301, RecvResult.timedOut)]
        [1] initManagerState ⟨0, 0⟩ =
      ([OutMsg.ping], [1], initManagerState, ⟨16, 0⟩, StepOutcome.closedWith 1000) := by
  norm_num +decide [runEndpoint, endpointStep, initManagerState]

/-- C6 (counterexample): an admitted frame with an unparsable payload gets
exactly one message, and it is of type `response` (carrying the error
text), not of type `error` — the loop continues. -/
theorem malformed_frame_no_error_type_counterexample :
    endpointStep b64bad genOk 1 [1] initManagerState ⟨10, 10⟩ 10
        (RecvResult.text none sendsAllOk) =
      ([OutMsg.response "系统错误: Invalid JSON format" 10], [1], ⟨10, 5, 0⟩, ⟨10, 10⟩,
        StepOutcome.continueLoop) ∧
    errorTypeCount
      (endpointStep b64bad genOk 1 [1] initManagerState ⟨10, 10⟩ 10
        (RecvResult.text none sendsAllOk)).1 = 0 := by
  constructor <;>
    norm_num +decide [endpointStep, process_frame, process_frame_body, relaxUpdate,
      rejectUpdate, initManagerState, base_interval, decodeFrame, errorTypeCount,
      attemptSends, sendsAllOk]

/-- C6 (amended): for every admitted inbound frame that is unparsable,
lacks the `image.data` field, or fails base64 decoding, the server sends
exactly one message — of type `response`, carrying the error text — and
the receive loop continues with the connection open and the registry
unchanged.  (Stated for an iteration where neither the inactivity timeout
nor a periodic ping is due and the response send returns normally.) -/
theorem malformed_frame_reply :
    ∀ (b64 : PyVal → Except String (List ℕ)) (g : List ℕ → GenResult)
      (ws : ℕ) (registry : List ℕ) (st : ManagerState) (lp : SessionLoop)
      (t : ℚ) (fj : Option PyVal) (sends : ℕ → Bool),
      ¬ 300 < t - lp.last_activity →
      ¬ 15 ≤ t - lp.last_ping →
      ¬ t - st.last_request_time < st.request_interval →
      sends 0 = true →
      (decodeFrame fj b64 = .malformedJson ∨ decodeFrame fj b64 = .malformedFrame ∨
        decodeFrame fj b64 = .decodeFailed) →
      ∃ s, endpointStep b64 g ws registry st lp t (.text fj sends) =
        ([OutMsg.response s (Rat.floor t)], registry, relaxUpdate st t,
          ⟨lp.last_ping, t⟩, StepOutcome.continueLoop) := by
  intro b64 g ws registry st lp t fj sends htime hping hadm hs0 hmal
  have hat : ∀ (m : OutMsg) (rest : List OutMsg),
      attemptSends sends (m :: rest) 0 = some m := by
    intro m rest
    simp only [attemptSends]
    rw [if_pos hs0]
  have hstep : ∀ (s : String) (st2 : ManagerState),
      process_frame st t fj b64 g = (Except.ok (some s), st2) →
      endpointStep b64 g ws registry st lp t (.text fj sends) =
        ([OutMsg.response s (Rat.floor t)], registry, st2,
          ⟨lp.last_ping, t⟩, StepOutcome.continueLoop) := by
    intro s st2 hpf
    unfold endpointStep
    rw [if_neg htime]
    dsimp only
    simp only [if_neg hping, hpf, hat, List.nil_append]
  rcases hmal with h | h | h
  · have hb : process_frame_body st t fj b64 g =
        (Except.error "Invalid JSON format", relaxUpdate st t) := by
      unfold process_frame_body
      rw [if_neg hadm, h]
    exact ⟨"系统错误: " ++ "Invalid JSON format",
      hstep _ _ (by simp only [process_frame, hb])⟩
  · have hb : process_frame_body st t fj b64 g =
        (Except.error "Invalid frame data format", relaxUpdate st t) := by
      unfold process_frame_body
      rw [if_neg hadm, h]
    exact ⟨"系统错误: " ++ "Invalid frame data format",
      hstep _ _ (by simp only [process_frame, hb])⟩
  · have hb : process_frame_body st t fj b64 g =
        (Except.ok (some "视频帧解码错误，请检查图像格式"), relaxUpdate st t) := by
      unfold process_frame_body
      rw [if_neg hadm, h]
    exact ⟨"视频帧解码错误，请检查图像格式",
      hstep _ _ (by simp only [process_frame, hb])⟩

/-- Witness for `malformed_frame_reply`: an unparsable frame at t = 10
with the limiter and liveness checks all clear and a working socket. -/
theorem malformed_frame_reply_witness :
    ∃ s, endpointStep b64bad genOk 1 [1] initManagerState ⟨10, 10⟩ 10
        (RecvResult.text none sendsAllOk) =
      ([OutMsg.response s (Rat.floor (10 : ℚ))], [1], relaxUpdate initManagerState 10,
        ⟨10, 10⟩, StepOutcome.continueLoop) :=
  malformed_frame_reply b64bad genOk 1 [1] initManagerState ⟨10, 10⟩ 10 none sendsAllOk
    (by norm_num) (by norm_num) (by norm_num [initManagerState]) rfl
    (Or.inl (by decide))

/-- C9 (counterexample): the caller's handler at lines 272-278 IS
reachable: the `try` at line 245 guards not only `process_frame` but also
the sends at lines 249-271, so when the rate-limit notification send at
line 267 raises — the client vanished right after delivering its frame —
the exception is caught at line 272 and the send of `处理视频帧时出错，请重试`
(line 274) is delivered.  Concretely: a rate-limited frame at t = 11 whose
first send raises yields exactly that error-type message. -/
theorem send_failure_reaches_process_error_counterexample :
    endpointStep b64bad genOk 1 [1] ⟨10, 5, 0⟩ ⟨10, 10⟩ 11
        (RecvResult.text none sendFailFirst) =
      ([OutMsg.errorMsg "处理视频帧时出错，请重试" (some 11)], [1], ⟨10, 5, 0⟩, ⟨10, 11⟩,
        StepOutcome.continueLoop) ∧
    hasErrorText "处理视频帧时出错，请重试"
      (endpointStep b64bad genOk 1 [1] ⟨10, 5, 0⟩ ⟨10, 10⟩ 11
        (RecvResult.text none sendFailFirst)).1 = true := by
  constructor <;>
    norm_num +decide [endpointStep, process_frame, process_frame_body, rejectUpdate,
      attemptSends, sendFailFirst, hasErrorText]

/-- C9 (amended): `process_frame` is total on the modelled inputs: every
internal failure is caught inside it (the outer handler at lines 188-190
converts any escaping `ValueError` into a normal `"系统错误: ..."` return),
so no exception ever propagates out of `process_frame` to the caller, and
the caller's surrounding handler (lines 272-278) can never be entered on
account of `process_frame`: in every loop iteration whose sends all return
normally, `处理视频帧时出错，请重试` is never sent.  The handler stays
reachable only through a failure of one of the sends at lines 249-271 that
the same `try` guards (see the counterexample). -/
theorem process_frame_never_raises :
    ∀ (st : ManagerState) (t : ℚ) (fj : Option PyVal)
      (b64 : PyVal → Except String (List ℕ)) (g : List ℕ → GenResult)
      (ws : ℕ) (registry : List ℕ) (lp : SessionLoop) (recv : RecvResult),
      exnEscaped (process_frame st t fj b64 g).1 = false ∧
      (allSendsOk recv →
        hasErrorText "处理视频帧时出错，请重试"
          (endpointStep b64 g ws registry st lp t recv).1 = false) := by
  intro st t fj b64 g ws registry lp recv
  constructor
  · obtain ⟨v, hv⟩ := process_frame_ok st t fj b64 g
    rw [hv]
    rfl
  · intro hsend
    have hp : hasErrorText "处理视频帧时出错，请重试"
        (if 15 ≤ t - lp.last_ping then [OutMsg.ping] else []) = false := by
      split <;> rfl
    unfold endpointStep
    split
    · rfl
    · dsimp only
      cases recv with
      | timedOut => exact hp
      | disconnected => exact hp
      | transportFatal => exact hp
      | recvError =>
          rw [hasErrorText_append, hp]
          decide
      | text fj2 sends =>
          dsimp only
          have hs0 : ∀ n, sends n = true := hsend
          have hat : ∀ (m : OutMsg) (rest : List OutMsg),
              attemptSends sends (m :: rest) 0 = some m := by
            intro m rest
            simp only [attemptSends]
            rw [if_pos (hs0 0)]
          obtain ⟨v, hv⟩ := process_frame_ok st t fj2 b64 g
          rcases hpp : process_frame st t fj2 b64 g with ⟨r, st2⟩
          rw [hpp] at hv
          simp only at hv
          subst hv
          cases v with
          | none =>
              dsimp only
              rw [hat]
              dsimp only
              rw [hasErrorText_append, hp]
              simp +decide [hasErrorText]
          | some s =>
              dsimp only
              rw [hat]
              dsimp only
              rw [hasErrorText_append, hp]
              simp [hasErrorText]

/-- Witness for `process_frame_never_raises` at a concrete frame iteration
whose sends all return normally. -/
theorem process_frame_never_raises_witness :
    exnEscaped (process_frame initManagerState 20 none b64bad genOk).1 = false ∧
      hasErrorText "处理视频帧时出错，请重试"
        (endpointStep b64bad genOk 1 [1] initManagerState ⟨10, 10⟩ 10
          (RecvResult.text none sendsAllOk)).1 = false :=
  ⟨(process_frame_never_raises initManagerState 20 none b64bad genOk 1 [1] ⟨10, 10⟩
      (RecvResult.text none sendsAllOk)).1,
    (process_frame_never_raises initManagerState 10 none b64bad genOk 1 [1] ⟨10, 10⟩
      (RecvResult.text none sendsAllOk)).2 (fun _ => rfl)⟩
